import Mathlib

/-!
Verification of the admission/transcription/mapping front-end of the
deploy_gro repository.  The TypeScript sources are shallowly embedded:
string-level routines work on `List Char`, JavaScript values relevant to
the merge and transcript-extraction code are modelled by `JSVal`, and
every reading of the system clock (`new Date()`) is passed in explicitly
through a `Clock` record.
-/

namespace DeployGro

/-- Whitespace test used by the JS-style `trim` (space, tab, CR, LF). -/
def wsChar (c : Char) : Bool := c.isWhitespace

/-- JS `String.prototype.trim` on the character list: drop whitespace
from both ends. -/
def jsTrimL (l : List Char) : List Char :=
  ((l.dropWhile wsChar).reverse.dropWhile wsChar).reverse

/-- JS `String.prototype.trim` on strings. -/
def jsTrimS (s : String) : String := String.mk (jsTrimL s.toList)

/-- JS `String.prototype.toLowerCase` (character-wise). -/
def lowerL (l : List Char) : List Char := l.map Char.toLower

/-- Does the first list start with the second one? -/
def startsWithL : List Char → List Char → Bool
  | _, [] => true
  | [], _ :: _ => false
  | c :: l, p :: ps => c == p && startsWithL l ps

/-- JS `String.prototype.includes`: does `pat` occur contiguously in the
list? -/
def containsSub : List Char → List Char → Bool
  | [], pat => pat.isEmpty
  | c :: l, pat => startsWithL (c :: l) pat || containsSub l pat

/-- Decimal value of a list of digit characters (the `parseInt` of an
all-digit string). -/
def digitsToNat (l : List Char) : Nat :=
  l.foldl (fun n c => n * 10 + (c.toNat - 48)) 0

/-- JS `padStart(2, '0')`. -/
def padStart2 (l : List Char) : List Char :=
  if l.length < 2 then List.replicate (2 - l.length) '0' ++ l else l

/-- Separator class of the date regexes: a dash or a forward slash. -/
def isSepChar (c : Char) : Bool := c == '-' || c == '/'

/-- JS `substring(a, b)` on character lists (`a ≤ b` in all uses). -/
def subStr (l : List Char) (a b : Nat) : List Char := (l.take b).drop a

/-- JavaScript values as far as the merge / transcript-extraction code
observes them. -/
inductive JSVal where
  | jsUndefined : JSVal
  | jsNull : JSVal
  | jsBool : Bool → JSVal
  | num : Int → JSVal
  | str : String → JSVal
  | obj : List (String × JSVal) → JSVal

/-- JS truthiness. -/
def truthy : JSVal → Bool
  | .jsUndefined => false
  | .jsNull => false
  | .jsBool b => b
  | .num n => n != 0
  | .str s => s != ""
  | .obj _ => true

/-- JS string coercion `` `${v}` ``. -/
def jsToString : JSVal → String
  | .jsUndefined => "undefined"
  | .jsNull => "null"
  | .jsBool true => "true"
  | .jsBool false => "false"
  | .num n => toString n
  | .str s => s
  | .obj _ => "[object Object]"

/-- JS `a || b`. -/
def jsOr (a b : JSVal) : JSVal := if truthy a then a else b

/-- JS `a || b` restricted to strings (only `""` is falsy). -/
def jsOrS (a b : String) : String := if a = "" then b else a

/-- Property lookup on an object's field list (`undefined` when the key
is absent). -/
def objGet (fields : List (String × JSVal)) (k : String) : JSVal :=
  match fields with
  | [] => .jsUndefined
  | (k', v) :: rest => if k' = k then v else objGet rest k

/-- The guard of `mergeIfPresent` (src/frontend/src/pages/Admission.tsx):
`v !== undefined && v !== null && `${v}`.trim() !== ""`. -/
def keepVal : JSVal → Bool
  | .jsUndefined => false
  | .jsNull => false
  | v => jsTrimS (jsToString v) != ""

/-- One step of the `Object.entries(patch).forEach` loop in
`mergeIfPresent`. -/
def mergeStep (acc : String → JSVal) (kv : String × JSVal) : String → JSVal :=
  if keepVal kv.2 then (fun k => if k = kv.1 then kv.2 else acc k) else acc

/-- `mergeIfPresent(base, patch)` from src/frontend/src/pages/Admission.tsx:
spread `base`, then copy each entry of `patch` whose value passes
`keepVal`.  The record is modelled as a total map from keys to `JSVal`
(`jsUndefined` standing for an absent key), the patch as its entry list (keys
are unique in a JS object). -/
def mergeIfPresent (base : String → JSVal) (patch : List (String × JSVal)) :
    String → JSVal :=
  patch.foldl mergeStep base

theorem mergeIfPresent_cons (base : String → JSVal) (kv : String × JSVal)
    (rest : List (String × JSVal)) :
    mergeIfPresent base (kv :: rest) = mergeIfPresent (mergeStep base kv) rest := rfl

theorem mergeStep_ne (acc : String → JSVal) (kv : String × JSVal) (k : String)
    (h : k ≠ kv.1) : mergeStep acc kv k = acc k := by
  unfold mergeStep
  by_cases hk : keepVal kv.2 <;> simp [hk, h]

theorem mergeIfPresent_not_mem (base : String → JSVal)
    (patch : List (String × JSVal)) (k : String)
    (h : k ∉ patch.map Prod.fst) : mergeIfPresent base patch k = base k := by
  induction patch generalizing base with
  | nil => rfl
  | cons kv rest ih =>
    simp only [List.map_cons, List.mem_cons, not_or] at h
    rw [mergeIfPresent_cons, ih _ h.2, mergeStep_ne _ _ _ h.1]

theorem mergeIfPresent_mem (base : String → JSVal)
    (patch : List (String × JSVal)) (k : String) (v : JSVal)
    (hnd : (patch.map Prod.fst).Nodup) (hmem : (k, v) ∈ patch) :
    mergeIfPresent base patch k = if keepVal v then v else base k := by
  induction patch generalizing base with
  | nil => cases hmem
  | cons kv rest ih =>
    simp only [List.map_cons, List.nodup_cons] at hnd
    rw [mergeIfPresent_cons]
    rcases List.mem_cons.mp hmem with heq | hmem'
    · have hk : k ∉ rest.map Prod.fst := by
        rw [← heq] at hnd; exact hnd.1
      rw [mergeIfPresent_not_mem _ _ _ hk]
      unfold mergeStep
      rw [← heq]
      by_cases hkeep : keepVal v <;> simp [hkeep]
    · have hk1 : k ≠ kv.1 := fun hcontra =>
        hnd.1 (hcontra ▸ List.mem_map_of_mem Prod.fst hmem')
      rw [ih _ hnd.2 hmem', mergeStep_ne _ _ _ hk1]

/-- Readings of the system clock taken by the code: `new Date()` and its
derived strings.  `todayISO`/`tomorrowISO`/`yesterdayISO` stand for
`date.toISOString().split('T')[0]` of the respective day, `nowHMM` for
`new Date().toTimeString().substring(0, 5)`, and `nowISO` for
`new Date().toISOString()`. -/
structure Clock where
  todayISO : String
  tomorrowISO : String
  yesterdayISO : String
  nowHMM : String
  nowISO : String

/-- `normalizeGender` from src/frontend/src/lib/postProcessAdmission.ts:
lowercase and trim, then `'male'` when the text contains `"male"` but not
`"female"`, `'female'` when it contains `"female"`, else `'other'`. -/
def normalizeGender (gender : Option String) : String :=
  match gender with
  | none => "other"
  | some g =>
    if g = "" then "other"
    else if containsSub (jsTrimL (lowerL g.toList)) ("male".toList) &&
        !containsSub (jsTrimL (lowerL g.toList)) ("female".toList) then "male"
    else if containsSub (jsTrimL (lowerL g.toList)) ("female".toList) then "female"
    else "other"

/-- `normalizeAge` from postProcessAdmission.ts: numbers pass through,
strings are stripped to their digits and parsed (`NaN`, i.e. no digit at
all, becomes 0), missing input becomes 0. -/
def normalizeAge (age : Option (Int ⊕ String)) : Int :=
  match age with
  | none => 0
  | some (Sum.inl n) => n
  | some (Sum.inr s) =>
    if (s.toList.filter Char.isDigit).isEmpty then 0
    else (digitsToNat (s.toList.filter Char.isDigit) : Int)

/-- `normalizeMobileNumber` from postProcessAdmission.ts: strip
non-digits and keep the first ten. -/
def normalizeMobileNumber (mobile : Option String) : String :=
  match mobile with
  | none => ""
  | some s => String.mk ((s.toList.filter Char.isDigit).take 10)

/-- `normalizeAadhaarNumber` from postProcessAdmission.ts: strip
non-digits; exactly twelve digits are regrouped with `substring` calls,
anything else passes through stripped. -/
def normalizeAadhaarNumber (aadhaar : Option String) : String :=
  match aadhaar with
  | none => ""
  | some a =>
    if a = "" then ""
    else if (a.toList.filter Char.isDigit).length = 12 then
      String.mk (subStr (a.toList.filter Char.isDigit) 0 4 ++
        ' ' :: subStr (a.toList.filter Char.isDigit) 4 8 ++
        ' ' :: subStr (a.toList.filter Char.isDigit) 8 12)
    else String.mk (a.toList.filter Char.isDigit)

/-- The test `/^\d{4}-\d{2}-\d{2}$/` of `normalizeDate`. -/
def isISO (l : List Char) : Bool :=
  match l with
  | [y1, y2, y3, y4, s1, m1, m2, s2, d1, d2] =>
    y1.isDigit && y2.isDigit && y3.isDigit && y4.isDigit && s1 == '-' &&
    m1.isDigit && m2.isDigit && s2 == '-' && d1.isDigit && d2.isDigit
  | _ => false

/-- The anchored test `/^\d{1,2}[-\x2f]\d{1,2}[-\x2f]\d{2,4}$/` of
`normalizeDate`, returning the three digit groups (which is also what
`dateStr.split` on the separator class yields when the test succeeds). -/
def scanDMY (l : List Char) : Option (List Char × List Char × List Char) :=
  let d := l.takeWhile Char.isDigit
  if 1 ≤ d.length ∧ d.length ≤ 2 then
    match l.drop d.length with
    | s1 :: r1 =>
      if isSepChar s1 then
        let m := r1.takeWhile Char.isDigit
        if 1 ≤ m.length ∧ m.length ≤ 2 then
          match r1.drop m.length with
          | s2 :: r2 =>
            if isSepChar s2 && r2.all Char.isDigit &&
                decide (2 ≤ r2.length) && decide (r2.length ≤ 4) then
              some (d, m, r2)
            else none
          | [] => none
        else none
      else none
    | [] => none
  else none

/-- Year fixup of `normalizeDate`: a two-digit year gets a `20` prefix. -/
def yearFix (y : List Char) : List Char :=
  if y.length = 2 then '2' :: '0' :: y else y

/-- The ISO string rebuilt by the day-month-year branch of
`normalizeDate`: `year-month-day` with zero-padded month and day. -/
def dmyRender (d m y : List Char) : List Char :=
  yearFix y ++ '-' :: (padStart2 m ++ '-' :: padStart2 d)

/-- `normalizeDate` from postProcessAdmission.ts.  Every `new Date()`
reading is supplied by the `Clock`. -/
def normalizeDate (c : Clock) (date : Option String) : String :=
  match date with
  | none => c.todayISO
  | some s =>
    if s = "" then c.todayISO
    else if isISO (jsTrimL s.toList) then String.mk (jsTrimL s.toList)
    else
      match scanDMY (jsTrimL s.toList) with
      | some (d, m, y) => String.mk (dmyRender d m y)
      | none =>
        if containsSub (lowerL (jsTrimL s.toList)) ("today".toList) then c.todayISO
        else if containsSub (lowerL (jsTrimL s.toList)) ("tomorrow".toList) then c.tomorrowISO
        else if containsSub (lowerL (jsTrimL s.toList)) ("yesterday".toList) then c.yesterdayISO
        else c.todayISO

/-- The anchored test `/^\d{1,2}:\d{2}$/` of `normalizeTime`, returning
hour and minute digit groups. -/
def scanHM (l : List Char) : Option (List Char × List Char) :=
  let h := l.takeWhile Char.isDigit
  if 1 ≤ h.length ∧ h.length ≤ 2 then
    match l.drop h.length with
    | ':' :: rest =>
      if rest.all Char.isDigit ∧ rest.length = 2 then some (h, rest) else none
    | _ => none
  else none

/-- The anchored, case-insensitive test of `normalizeTime` for
`H:MM am|pm` (optional whitespace before the period), returning hour
digits, minute digits, and whether the period is `pm`. -/
def scanAmPm (l : List Char) : Option (List Char × List Char × Bool) :=
  let h := l.takeWhile Char.isDigit
  if 1 ≤ h.length ∧ h.length ≤ 2 then
    match l.drop h.length with
    | ':' :: m1 :: m2 :: rest =>
      if m1.isDigit && m2.isDigit then
        match lowerL (rest.dropWhile wsChar) with
        | ['a', 'm'] => some (h, [m1, m2], false)
        | ['p', 'm'] => some (h, [m1, m2], true)
        | _ => none
      else none
    | _ => none
  else none

/-- The am/pm hour arithmetic of `normalizeTime`: add 12 for `pm` hours
other than 12, turn `12 am` into 0. -/
def to24Hour (h : Nat) (isPM : Bool) : Nat :=
  if isPM = true ∧ h ≠ 12 then h + 12
  else if isPM = false ∧ h = 12 then 0
  else h

/-- `normalizeTime` from postProcessAdmission.ts. -/
def normalizeTime (c : Clock) (time : Option String) : String :=
  match time with
  | none => c.nowHMM
  | some s =>
    if s = "" then c.nowHMM
    else
      match scanHM (jsTrimL s.toList) with
      | some (h, m) => String.mk (padStart2 h ++ ':' :: m)
      | none =>
        match scanAmPm (jsTrimL s.toList) with
        | some (h, m, isPM) =>
          String.mk (padStart2 (toString (to24Hour (digitsToNat h) isPM)).toList ++ ':' :: m)
        | none =>
          if containsSub (lowerL (jsTrimL s.toList)) ("now".toList) ||
              containsSub (lowerL (jsTrimL s.toList)) ("current".toList) then c.nowHMM
          else c.nowHMM

/-- `RawAdmissionData` from postProcessAdmission.ts (the fields the
post-processor reads; `age` may arrive as a number or a string). -/
structure RawAdmissionData where
  name : Option String := none
  age : Option (Int ⊕ String) := none
  gender : Option String := none
  mobile_no : Option String := none
  admitted_under_doctor : Option String := none
  attender_name : Option String := none
  relation : Option String := none
  attender_mobile_no : Option String := none
  aadhaar_number : Option String := none
  admission_date : Option String := none
  admission_time : Option String := none
  ward : Option String := none
  bed_number : Option String := none
  reason : Option String := none

/-- `ProcessedAdmissionData` from postProcessAdmission.ts. -/
structure ProcessedAdmissionData where
  patient_id : String
  name : String
  age : Int
  gender : String
  mobile_no : String
  admitted_under_doctor : String
  attender_name : String
  relation : String
  attender_mobile_no : String
  aadhaar_number : String
  admission_date : String
  admission_time : String
  ward : String
  bed_number : String
  reason : String
  status : String
  created_at : String
  updated_at : String

/-- The `errors` array accumulated by `validateProcessedData`
(postProcessAdmission.ts), in source order. -/
def validationErrors (d : ProcessedAdmissionData) : List String :=
  (if jsTrimS d.name = "" then ["Patient name is required"] else []) ++
    (if d.age < 0 ∨ 120 < d.age then ["Age must be between 0 and 120"] else []) ++
    (if d.mobile_no.length ≠ 10 then ["Mobile number must be 10 digits"] else []) ++
    (if d.aadhaar_number ≠ "" ∧
        (d.aadhaar_number.toList.filter (fun c => !wsChar c)).length ≠ 12 then
      ["Aadhaar number must be 12 digits"] else []) ++
    (if jsTrimS d.admitted_under_doctor = "" then ["Admitting doctor is required"] else []) ++
    (if jsTrimS d.ward = "" then ["Ward is required"] else []) ++
    (if jsTrimS d.bed_number = "" then ["Bed number is required"] else []) ++
    (if jsTrimS d.reason = "" then ["Admission reason is required"] else [])

/-- `validateProcessedData` from postProcessAdmission.ts: the record
checks, returning `isValid` (no errors) plus the error messages. -/
def validateProcessedData (d : ProcessedAdmissionData) : Bool × List String :=
  ((validationErrors d).isEmpty, validationErrors d)

/-- The `processed` record literal built by `postProcessAdmission`
(postProcessAdmission.ts).  `generatePatientId()` draws on `Date.now`
and `Math.random`, so the produced id is a parameter here. -/
def mkProcessed (c : Clock) (pid : String) (raw : RawAdmissionData) :
    ProcessedAdmissionData :=
  { patient_id := pid
    name := jsTrimS (raw.name.getD "")
    age := normalizeAge raw.age
    gender := normalizeGender raw.gender
    mobile_no := normalizeMobileNumber raw.mobile_no
    admitted_under_doctor := jsTrimS (raw.admitted_under_doctor.getD "")
    attender_name := jsTrimS (raw.attender_name.getD "")
    relation := jsTrimS (raw.relation.getD "")
    attender_mobile_no := normalizeMobileNumber raw.attender_mobile_no
    aadhaar_number := normalizeAadhaarNumber raw.aadhaar_number
    admission_date := normalizeDate c raw.admission_date
    admission_time := normalizeTime c raw.admission_time
    ward := jsTrimS (raw.ward.getD "")
    bed_number := jsTrimS (raw.bed_number.getD "")
    reason := jsTrimS (raw.reason.getD "")
    status := "admitted"
    created_at := c.nowISO
    updated_at := c.nowISO }

/-- `postProcessAdmission` from postProcessAdmission.ts: build the
processed record, validate it, log the warnings when invalid
(`console.warn`), and return the record regardless.  The second
component is the logged warning list. -/
def postProcessAdmission (c : Clock) (pid : String) (raw : RawAdmissionData) :
    ProcessedAdmissionData × List String :=
  (mkProcessed c pid raw,
   if (validateProcessedData (mkProcessed c pid raw)).fst then []
   else (validateProcessedData (mkProcessed c pid raw)).snd)

/-- The capitalisation `gender[0].toUpperCase() + gender.slice(1)`
applied in Admission.tsx before merging (its argument is never empty
there). -/
def capFirst (s : String) : String :=
  match s.toList with
  | [] => s
  | c :: rest => String.mk (c.toUpper :: rest)

/-- The patch object literal passed to `mergeIfPresent` by the mapping
handler in src/frontend/src/pages/Admission.tsx, built from the
processed record and the previous form (`prev`, viewed as a key-value
map). -/
def admissionPatch (p : ProcessedAdmissionData) (prev : String → JSVal) :
    List (String × JSVal) :=
  [("name", .str p.name),
   ("age", if p.age ≠ 0 then .str (toString p.age) else prev "age"),
   ("gender", if p.gender ≠ "" then .str (capFirst p.gender) else prev "gender"),
   ("mobile_no", .str p.mobile_no),
   ("aadhaar_number", .str (jsOrS p.aadhaar_number "")),
   ("admission_date", .str p.admission_date),
   ("admission_time", .str p.admission_time),
   ("reason", .str p.reason)]

/-- A transcription HTTP response as the recorder observes it:
`ok`/`status` of the fetch, the `JSON.parse` of the body (`none` when
the body is not parsable JSON), and the raw body text. -/
structure FetchResp where
  ok : Bool
  status : Nat
  bodyParse : Option JSVal
  bodyText : String

/-- Outcome of a recorder run: either an error was set for the user
(`failed`), or the transcript callbacks fired with the given string
(`delivered`). -/
inductive RecOutcome where
  | failed : String → RecOutcome
  | delivered : String → RecOutcome

/-- `safeJson` from the recorder component (src/unnamed/part_002): the
parsed body, or `{text: "", _raw: t}` when the body is not parsable
JSON. -/
def safeJson (parsed : Option JSVal) (raw : String) : JSVal :=
  match parsed with
  | some v => v
  | none => .obj [("text", .str ""), ("_raw", .str raw)]

/-- Transcript extraction in `processAudio` (src/unnamed/part_002): a
bare string passes through; on a (non-null) object the chain
`result.text || result.transcript || result.result || ''`; anything
else leaves the initial `''`. -/
def extractTranscript (result : JSVal) : JSVal :=
  match result with
  | .str s => .str s
  | .obj fields =>
    jsOr (objGet fields "text")
      (jsOr (objGet fields "transcript") (jsOr (objGet fields "result") (.str "")))
  | _ => .str ""

/-- The status-specific error strings of `processAudio`
(src/unnamed/part_002). -/
def transcribeErrorMsg (status : Nat) : String :=
  if status = 500 then "Backend error - check if ffmpeg is installed"
  else if status = 404 then "Transcription service not found - check backend"
  else if status = 0 then "Cannot connect to backend - is it running?"
  else "Transcription failed (" ++ toString status ++ ")"

/-- `processAudio` from the recorder component (src/unnamed/part_002).
The first component records whether the fetch to the transcription
endpoint was issued; the second is the user-visible outcome.  An empty
blob throws before any network activity; a disabled-transcription run
delivers a placeholder; a non-ok response sets a status-derived error;
otherwise the body goes through `safeJson`, the transcript is extracted
and, when its trim is non-empty, delivered trimmed, else delivered as
`''` (never as an error).  A truthy non-string transcript would hit
`.trim()` and throw a `TypeError`, which the surrounding catch turns
into an error message. -/
def processAudio (blobSize : Nat) (enableTranscription : Bool) (resp : FetchResp) :
    Bool × RecOutcome :=
  if blobSize = 0 then
    (false, .failed "Audio blob is empty - no audio was recorded")
  else if enableTranscription = false then
    (false, .delivered "Audio recorded (transcription disabled)")
  else if resp.ok = false then
    (true, .failed (transcribeErrorMsg resp.status))
  else
    match extractTranscript (safeJson resp.bodyParse resp.bodyText) with
    | .str t => if jsTrimS t = "" then (true, .delivered "") else (true, .delivered (jsTrimS t))
    | v =>
      if truthy v then (true, .failed "TypeError: transcript.trim is not a function")
      else (true, .delivered "")

/-- JS property access `v.text` as used on the parsed body in
SimpleRecorder: lookup on objects, `TypeError` (`none`) on
null/undefined, `undefined` on other primitives. -/
def propGet : JSVal → String → Option JSVal
  | .obj fields, k => some (objGet fields k)
  | .jsUndefined, _ => none
  | .jsNull, _ => none
  | _, _ => some .jsUndefined

/-- The `mediaRecorder.onstop` handler of
src/frontend/src/components/SimpleRecorder.tsx.  An empty assembled blob
throws `'No audio recorded'` before the fetch; a non-ok response throws
an `API error`; the body is parsed with `response.json()` (throwing on
unparsable JSON); the transcript is `result.text || result` and is
delivered untrimmed when its trim is truthy, else the error
`'No transcript received from server'` is set. -/
def simpleRecorderOnStop (blobSize : Nat) (resp : FetchResp) : Bool × RecOutcome :=
  if blobSize = 0 then
    (false, .failed "No audio recorded")
  else if resp.ok = false then
    (true, .failed ("API error: " ++ toString resp.status ++ " - " ++ resp.bodyText))
  else
    match resp.bodyParse with
    | none => (true, .failed "Unexpected end of JSON input")
    | some result =>
      match propGet result "text" with
      | none => (true, .failed "TypeError: cannot read properties of null")
      | some tv =>
        match jsOr tv result with
        | .str t =>
          if jsTrimS t = "" then (true, .failed "No transcript received from server")
          else (true, .delivered t)
        | v =>
          if truthy v then (true, .failed "TypeError: transcribedText.trim is not a function")
          else (true, .failed "No transcript received from server")

/-- The fields of the outgoing-handover form touched by the heuristic
fallback the spec describes (status, medications, pending tasks); the
vitals sub-record is updated independently and does not influence
these. -/
structure HandoverOutgoingForm where
  currentPatientStatus : String
  medsGiven : String
  medsDue : String
deriving Repr, DecidableEq

/-- The mapping-endpoint response fields read for the three fallback
fields by `mapOutgoingFromTranscript` (src/unnamed/part_005); `none`
models an absent/undefined field (or an entirely empty response). -/
structure HandoverOutgoingResp where
  patient_condition : Option String
  medications : Option (List String)
  pending_tasks : Option (List String)
deriving Repr, DecidableEq

/-- A toast notification (react-hot-toast): non-blocking UI feedback. -/
inductive ToastMsg where
  | success : String → ToastMsg
  | error : String → ToastMsg
deriving Repr, DecidableEq

/-- First match of the case-insensitive regex `lit ++ "[^.]*"` in `l`
(used for `/medications?[^.]*\x2fi` and `/pending[^.]*\x2fi`): from the
leftmost case-insensitive occurrence of `lit`, extend to the end of the
dot-free stretch. -/
def matchLitSeg (l : List Char) (lit : List Char) : Option (List Char) :=
  match l with
  | [] => none
  | c :: rest =>
    if startsWithL (lowerL (c :: rest)) lit then
      some ((c :: rest).take lit.length ++
        ((c :: rest).drop lit.length).takeWhile (fun x => x ≠ '.'))
    else matchLitSeg rest lit

/-- First match of the case-insensitive regex
`lit1 ++ "[^.]*" ++ lit2 ++ "[^.]*"` in `l` (the status patterns): from
the leftmost occurrence of `lit1` whose following dot-free stretch
contains `lit2`, extend to the end of that stretch. -/
def matchLitSegLit (l : List Char) (lit1 lit2 : List Char) : Option (List Char) :=
  match l with
  | [] => none
  | c :: rest =>
    if startsWithL (lowerL (c :: rest)) lit1 &&
        containsSub (lowerL (((c :: rest).drop lit1.length).takeWhile (fun x => x ≠ '.')))
          lit2 then
      some ((c :: rest).take lit1.length ++
        ((c :: rest).drop lit1.length).takeWhile (fun x => x ≠ '.'))
    else matchLitSegLit rest lit1 lit2

/-- `fallbackStatus` of `mapOutgoingFromTranscript`:
`text.match(p1)?.[0] || text.match(p2)?.[0] || ""` for the two
status/stable patterns. -/
def fallbackStatus (text : String) : String :=
  jsOrS
    (match matchLitSegLit text.toList ("patient status".toList) ("stable".toList) with
     | some m => String.mk m
     | none => "")
    (match matchLitSegLit text.toList ("status".toList) ("stable".toList) with
     | some m => String.mk m
     | none => "")

/-- `fallbackMeds` of `mapOutgoingFromTranscript`. -/
def fallbackMeds (text : String) : String :=
  match matchLitSeg text.toList ("medication".toList) with
  | some m => String.mk m
  | none => ""

/-- `fallbackTasks` of `mapOutgoingFromTranscript`. -/
def fallbackTasks (text : String) : String :=
  match matchLitSeg text.toList ("pending".toList) with
  | some m => String.mk m
  | none => ""

/-- `mapOutgoingFromTranscript` from src/unnamed/part_005, projected to
the status/medications/pending-tasks fields.  The HTTP call is an
explicit `Except` argument; a blank transcript returns silently; a
successful call merges the response with the regex fallbacks and the
previous values; a thrown call is caught, a toast error is shown, and
the form is left untouched. -/
def mapOutgoingFromTranscript (txOutgoing : String) (prev : HandoverOutgoingForm)
    (api : Except String HandoverOutgoingResp) :
    HandoverOutgoingForm × List ToastMsg :=
  if jsTrimS txOutgoing = "" then (prev, [])
  else
    match api with
    | .error _ => (prev, [.error "Failed to map outgoing data"])
    | .ok m =>
      ({ currentPatientStatus :=
           jsOrS (jsOrS (m.patient_condition.getD "") (fallbackStatus (jsTrimS txOutgoing)))
             prev.currentPatientStatus
         medsGiven :=
           jsOrS (jsOrS (String.intercalate "; " (m.medications.getD []))
             (fallbackMeds (jsTrimS txOutgoing))) prev.medsGiven
         medsDue :=
           jsOrS (jsOrS (String.intercalate "; " (m.pending_tasks.getD []))
             (fallbackTasks (jsTrimS txOutgoing))) prev.medsDue },
       [.success "Outgoing mapped"])

/-- The date normalizer as the spec phrases it (amended to the code's
acceptance): trim; a `YYYY-MM-DD` string is returned unchanged; a
numeric day/month/year input (1-2 digit day and month, 2-4 digit year,
dash or slash separators, possibly mixed) is reordered and zero-padded,
two-digit years gaining a `20` prefix; inputs containing
today/tomorrow/yesterday (case-insensitive, in that priority) map to the
corresponding clock date; everything else maps to today. -/
def dateSpec (c : Clock) (date : Option String) : String :=
  match date with
  | none => c.todayISO
  | some s =>
    if isISO (jsTrimL s.toList) then String.mk (jsTrimL s.toList)
    else
      match scanDMY (jsTrimL s.toList) with
      | some (d, m, y) => String.mk (dmyRender d m y)
      | none =>
        if containsSub (lowerL (jsTrimL s.toList)) ("today".toList) then c.todayISO
        else if containsSub (lowerL (jsTrimL s.toList)) ("tomorrow".toList) then c.tomorrowISO
        else if containsSub (lowerL (jsTrimL s.toList)) ("yesterday".toList) then c.yesterdayISO
        else c.todayISO

/-- The time normalizer as the spec phrases it: trim; `H:MM` (two minute
digits) gets its hour zero-padded; `H:MM am|pm` is converted with the
standard 12-to-24-hour arithmetic; everything else — including inputs
mentioning "now"/"current" — is the current time. -/
def timeSpec (c : Clock) (time : Option String) : String :=
  match time with
  | none => c.nowHMM
  | some s =>
    match scanHM (jsTrimL s.toList) with
    | some (h, m) => String.mk (padStart2 h ++ ':' :: m)
    | none =>
      match scanAmPm (jsTrimL s.toList) with
      | some (h, m, isPM) =>
        String.mk (padStart2 (toString (to24Hour (digitsToNat h) isPM)).toList ++ ':' :: m)
      | none => c.nowHMM

/-- The gender normalizer as the spec phrases it: lowercase (and trim),
substring-match "female" before "male", default "other". -/
def genderSpec (gender : Option String) : String :=
  match gender with
  | none => "other"
  | some g =>
    if containsSub (jsTrimL (lowerL g.toList)) ("female".toList) then "female"
    else if containsSub (jsTrimL (lowerL g.toList)) ("male".toList) then "male"
    else "other"

/-- The national-ID normalizer as the spec phrases it: keep the digits;
exactly twelve digits become three space-separated groups of four
(via take/drop), anything else passes through stripped. -/
def aadhaarSpec (aadhaar : Option String) : String :=
  if ((aadhaar.getD "").toList.filter Char.isDigit).length = 12 then
    String.mk (((aadhaar.getD "").toList.filter Char.isDigit).take 4 ++
      ' ' :: ((((aadhaar.getD "").toList.filter Char.isDigit).drop 4).take 4 ++
        ' ' :: (((aadhaar.getD "").toList.filter Char.isDigit).drop 8).take 4))
  else String.mk ((aadhaar.getD "").toList.filter Char.isDigit)

/-- Clock readings that are non-blank after trimming — true of every
string `new Date()` actually produces. -/
def clockOK (c : Clock) : Prop :=
  jsTrimS c.todayISO ≠ "" ∧ jsTrimS c.tomorrowISO ≠ "" ∧
  jsTrimS c.yesterdayISO ≠ "" ∧ jsTrimS c.nowHMM ≠ ""

theorem mem_dropWhile_of_mem {p : Char → Bool} {a : Char} {l : List Char}
    (ha : a ∈ l) (hp : p a = false) : a ∈ l.dropWhile p := by
  induction l with
  | nil => cases ha
  | cons c rest ih =>
    rcases List.mem_cons.mp ha with rfl | hrest
    · rw [List.dropWhile_cons, if_neg (by simp [hp])]
      exact List.mem_cons_self _ _
    · rw [List.dropWhile_cons]
      by_cases hc : p c
      · simp only [hc, if_true]
        exact ih hrest
      · simp only [hc, if_false]
        exact List.mem_cons_of_mem _ hrest

theorem jsTrimL_ne_nil {a : Char} {l : List Char}
    (ha : a ∈ l) (hw : wsChar a = false) : jsTrimL l ≠ [] := by
  have h1 : a ∈ l.dropWhile wsChar := mem_dropWhile_of_mem ha hw
  have h2 : a ∈ (l.dropWhile wsChar).reverse := List.mem_reverse.mpr h1
  have h3 : a ∈ (l.dropWhile wsChar).reverse.dropWhile wsChar :=
    mem_dropWhile_of_mem h2 hw
  intro hcontra
  unfold jsTrimL at hcontra
  rw [List.reverse_eq_nil_iff] at hcontra
  rw [hcontra] at h3
  cases h3

theorem jsTrimS_mk_ne {a : Char} {l : List Char}
    (ha : a ∈ l) (hw : wsChar a = false) : jsTrimS (String.mk l) ≠ "" := by
  intro hcontra
  have : jsTrimL l = [] := congrArg String.data hcontra
  exact jsTrimL_ne_nil ha hw this

theorem isISO_dash_mem {l : List Char} (h : isISO l = true) : '-' ∈ l := by
  rcases l with _ | ⟨a, _ | ⟨b, _ | ⟨c, _ | ⟨d, _ | ⟨e, _ | ⟨f, _ | ⟨g, _ |
    ⟨h8, _ | ⟨i, _ | ⟨j, _ | ⟨k, tl⟩⟩⟩⟩⟩⟩⟩⟩⟩⟩⟩ <;>
    try exact Bool.noConfusion h
  simp only [isISO, Bool.and_eq_true, beq_iff_eq] at h
  have he : e = '-' := h.1.1.1.1.1.2
  subst he
  simp

theorem normalizeGender_cases (g : Option String) :
    normalizeGender g = "male" ∨ normalizeGender g = "female" ∨
      normalizeGender g = "other" := by
  rcases g with _ | s
  · exact Or.inr (Or.inr rfl)
  · simp only [normalizeGender]
    split
    · exact Or.inr (Or.inr rfl)
    · split
      · exact Or.inl rfl
      · split
        · exact Or.inr (Or.inl rfl)
        · exact Or.inr (Or.inr rfl)

theorem normalizeDate_trim_ne (c : Clock) (d : Option String) (hc : clockOK c) :
    jsTrimS (normalizeDate c d) ≠ "" := by
  rcases d with _ | s
  · exact hc.1
  · simp only [normalizeDate]
    split
    · exact hc.1
    · split
      · next hiso =>
        exact jsTrimS_mk_ne (isISO_dash_mem hiso) (by decide)
      · split
        · refine jsTrimS_mk_ne (a := '-') ?_ (by decide)
          unfold dmyRender
          exact List.mem_append_right _ (List.mem_cons_self _ _)
        · split
          · exact hc.1
          · split
            · exact hc.2.1
            · split
              · exact hc.2.2.1
              · exact hc.1

theorem normalizeTime_trim_ne (c : Clock) (t : Option String) (hc : clockOK c) :
    jsTrimS (normalizeTime c t) ≠ "" := by
  rcases t with _ | s
  · exact hc.2.2.2
  · simp only [normalizeTime]
    split
    · exact hc.2.2.2
    · split
      · refine jsTrimS_mk_ne (a := ':') ?_ (by decide)
        exact List.mem_append_right _ (List.mem_cons_self _ _)
      · split
        · refine jsTrimS_mk_ne (a := ':') ?_ (by decide)
          exact List.mem_append_right _ (List.mem_cons_self _ _)
        · split
          · exact hc.2.2.2
          · exact hc.2.2.2

/-- A concrete clock reading used by the witness and counterexample
theorems (January 9, 2025, 14:30). -/
def sampleClock : Clock :=
  ⟨"2025-01-09", "2025-01-10", "2025-01-08", "14:30", "2025-01-09T14:30:00.000Z"⟩

/-- C1: `mergeIfPresent(base, patch)` keeps, for each key of `patch`,
the patch value exactly when it is defined, non-null and non-empty after
string coercion and trimming, and the base value otherwise; keys of
`base` not present in `patch` are unchanged. -/
theorem C1_mergeIfPresent_correct (base : String → JSVal)
    (patch : List (String × JSVal)) (k : String) (v : JSVal)
    (hnd : (patch.map Prod.fst).Nodup) :
    ((k, v) ∈ patch →
      mergeIfPresent base patch k = if keepVal v then v else base k)
    ∧ (k ∉ patch.map Prod.fst → mergeIfPresent base patch k = base k) :=
  ⟨fun hmem => mergeIfPresent_mem base patch k v hnd hmem,
   fun hk => mergeIfPresent_not_mem base patch k hk⟩

/-- C1 witness: a non-blank patch value overwrites, a blank one does
not, and an untouched key keeps its base value. -/
theorem C1_mergeIfPresent_witness :
    mergeIfPresent (fun _ => JSVal.str "base")
        [("name", JSVal.str "Ada"), ("age", JSVal.str "  ")] "age"
      = JSVal.str "base"
    ∧ mergeIfPresent (fun _ => JSVal.str "base")
        [("name", JSVal.str "Ada"), ("age", JSVal.str "  ")] "name"
      = JSVal.str "Ada"
    ∧ mergeIfPresent (fun _ => JSVal.str "base")
        [("name", JSVal.str "Ada"), ("age", JSVal.str "  ")] "ward"
      = JSVal.str "base" := by
  refine ⟨?_, ?_, ?_⟩
  · have h := (C1_mergeIfPresent_correct (fun _ => JSVal.str "base")
      [("name", JSVal.str "Ada"), ("age", JSVal.str "  ")] "age" (JSVal.str "  ")
      (by decide)).1 (by simp)
    rw [h, if_neg (by decide)]
  · have h := (C1_mergeIfPresent_correct (fun _ => JSVal.str "base")
      [("name", JSVal.str "Ada"), ("age", JSVal.str "  ")] "name" (JSVal.str "Ada")
      (by decide)).1 (by simp)
    rw [h, if_pos (by decide)]
  · have h := (C1_mergeIfPresent_correct (fun _ => JSVal.str "base")
      [("name", JSVal.str "Ada"), ("age", JSVal.str "  ")] "ward" JSVal.jsUndefined
      (by decide)).2 (by decide)
    rw [h]

/-- C3: an audio blob of size zero makes both recorder paths reject
with their empty-audio error before any fetch is issued (the first
component of the result, `false`, says the transcription endpoint was
never called). -/
theorem C3_emptyAudio_noFetch (blobSize : Nat) (enableTranscription : Bool)
    (resp : FetchResp) (h : blobSize = 0) :
    processAudio blobSize enableTranscription resp =
      (false, .failed "Audio blob is empty - no audio was recorded")
    ∧ simpleRecorderOnStop blobSize resp = (false, .failed "No audio recorded") := by
  subst h
  exact ⟨rfl, rfl⟩

/-- C3 witness: the empty blob at a concrete environment. -/
theorem C3_emptyAudio_witness :
    processAudio 0 true ⟨true, 200, none, ""⟩ =
      (false, .failed "Audio blob is empty - no audio was recorded")
    ∧ simpleRecorderOnStop 0 ⟨true, 200, none, ""⟩ =
      (false, .failed "No audio recorded") :=
  C3_emptyAudio_noFetch 0 true ⟨true, 200, none, ""⟩ rfl

/-- C4: the transcript extractor accepts `{text: X}`, `{transcript: X}`,
`{result: X}` and the bare string `X`, returning `X` in each case; an
unparsable body becomes `{text: "", _raw: t}` (raw text kept in a side
channel) and the recorder then delivers `""`; a successful but empty
transcript is likewise delivered to the caller as `""`, not as an
error. -/
theorem C4_transcript_extraction (s raw : String) (n : Nat) :
    extractTranscript (.str s) = .str s
    ∧ extractTranscript (.obj [("text", .str s)]) = .str s
    ∧ extractTranscript (.obj [("transcript", .str s)]) = .str s
    ∧ extractTranscript (.obj [("result", .str s)]) = .str s
    ∧ safeJson none raw = .obj [("text", .str ""), ("_raw", .str raw)]
    ∧ processAudio (n + 1) true ⟨true, 200, none, raw⟩ = (true, .delivered "")
    ∧ processAudio (n + 1) true ⟨true, 200, some (.obj [("text", .str "")]), raw⟩
        = (true, .delivered "") := by
  refine ⟨rfl, ?_, ?_, ?_, rfl, ?_, ?_⟩
  · by_cases hs : s = "" <;>
      simp +decide [extractTranscript, objGet, jsOr, truthy, bne_iff_ne, hs]
  · by_cases hs : s = "" <;>
      simp +decide [extractTranscript, objGet, jsOr, truthy, bne_iff_ne, hs]
  · by_cases hs : s = "" <;>
      simp +decide [extractTranscript, objGet, jsOr, truthy, bne_iff_ne, hs]
  · simp +decide [processAudio, safeJson, extractTranscript, objGet, jsOr, truthy]
  · simp +decide [processAudio, safeJson, extractTranscript, objGet, jsOr, truthy]

/-- C7: the gender normalizer equals its spec reading (lowercase,
substring-match "female" before "male", default "other"), with the
boundary examples of the spec. -/
theorem C7_gender_correct (g : Option String) :
    normalizeGender g = genderSpec g
    ∧ normalizeGender (some "Female") = "female"
    ∧ normalizeGender (some "Transfemale") = "female"
    ∧ normalizeGender (some "M") = "other"
    ∧ normalizeGender none = "other" := by
  refine ⟨?_, rfl, rfl, rfl, rfl⟩
  rcases g with _ | s
  · rfl
  · by_cases hs : s = ""
    · subst hs; rfl
    · simp only [normalizeGender, genderSpec, if_neg hs]
      split_ifs <;> simp_all

/-- C8: the national-ID normalizer equals its spec reading (strip
non-digits; exactly twelve digits become three groups of four, anything
else passes through unformatted), with the spec's examples. -/
theorem C8_aadhaar_correct (a : Option String) :
    normalizeAadhaarNumber a = aadhaarSpec a
    ∧ normalizeAadhaarNumber (some "123456789012") = "1234 5678 9012"
    ∧ normalizeAadhaarNumber (some "12345678901") = "12345678901" := by
  refine ⟨?_, by decide, by decide⟩
  rcases a with _ | s
  · rfl
  · by_cases hs : s = ""
    · subst hs; rfl
    · simp only [normalizeAadhaarNumber, aadhaarSpec, if_neg hs, Option.getD_some]
      by_cases h12 : (s.toList.filter Char.isDigit).length = 12
      · simp only [if_pos h12]
        congr 1
        simp [subStr, List.drop_take]
      · simp only [if_neg h12]

/-- C5 counterexample: `"1-2-345"` is none of the forms the claim
enumerates (its year has three digits) and contains no relative-date
keyword, so the claim maps it to today's date; the code instead accepts
it through its `2–4` digit year pattern and returns `"345-02-01"`,
which is none of the clock's dates. -/
theorem C5_normalizeDate_counterexample :
    normalizeDate sampleClock (some "1-2-345") = "345-02-01"
    ∧ normalizeDate sampleClock (some "1-2-345") ≠ sampleClock.todayISO
    ∧ normalizeDate sampleClock (some "1-2-345") ≠ sampleClock.tomorrowISO
    ∧ normalizeDate sampleClock (some "1-2-345") ≠ sampleClock.yesterdayISO
    ∧ normalizeDate sampleClock (some "1-2/2024") = "2024-02-01"
    ∧ normalizeDate sampleClock (some "1-2/2024") ≠ sampleClock.todayISO := by
  refine ⟨by decide, by decide, by decide, by decide, by decide, by decide⟩

/-- C5 (amended): the date normalizer trims its input and returns
`YYYY-MM-DD` strings unchanged; it reorders and zero-pads every numeric
day-month-year input whose day and month have one or two digits and
whose year has two to four digits, with dash or slash separators
(possibly mixed), prefixing `20` only to two-digit years; it maps
inputs containing "today"/"tomorrow"/"yesterday" (case-insensitive, in
that priority) to the corresponding computed date; and it maps every
other input, including garbage, to today's date without raising. -/
theorem C5_normalizeDate_amended (c : Clock) (d : Option String) :
    normalizeDate c d = dateSpec c d
    ∧ normalizeDate c (some "25-12-2024") = "2024-12-25"
    ∧ normalizeDate c (some "25/12/24") = "2024-12-25"
    ∧ normalizeDate c (some "2024-12-25") = "2024-12-25"
    ∧ normalizeDate c (some "garbage") = c.todayISO
    ∧ normalizeDate c (some "Today") = c.todayISO
    ∧ normalizeDate c (some "tomorrow") = c.tomorrowISO
    ∧ normalizeDate c (some "yesterday") = c.yesterdayISO
    ∧ normalizeDate c none = c.todayISO := by
  refine ⟨?_, rfl, rfl, rfl, rfl, rfl, rfl, rfl, rfl⟩
  rcases d with _ | s
  · rfl
  · by_cases hs : s = ""
    · subst hs; rfl
    · simp only [normalizeDate, dateSpec, if_neg hs]

/-- C6: the time normalizer equals its spec reading (zero-pad the hour
of `H:MM`; convert `H:MM am|pm` with the 12-to-24-hour arithmetic;
everything else, including "now"/"current" mentions, is the current
time), and in particular the single-digit minute `"9:5"` is not matched
and falls through to the current time. -/
theorem C6_time_correct (c : Clock) (t : Option String) :
    normalizeTime c t = timeSpec c t
    ∧ normalizeTime c (some "9:5") = c.nowHMM
    ∧ normalizeTime c (some "9:30 pm") = "21:30"
    ∧ normalizeTime c (some "9:30") = "09:30"
    ∧ normalizeTime c (some "12:15 am") = "00:15"
    ∧ normalizeTime c (some "now") = c.nowHMM := by
  refine ⟨?_, rfl, rfl, rfl, rfl, rfl⟩
  rcases t with _ | s
  · rfl
  · by_cases hs : s = ""
    · subst hs; rfl
    · simp only [normalizeTime, timeSpec, if_neg hs]
      cases hhm : scanHM (jsTrimL s.toList) with
      | some pair => rfl
      | none =>
        cases hap : scanAmPm (jsTrimL s.toList) with
        | some trip => rfl
        | none => simp

/-- C2 counterexample: a non-empty transcript with extractable status,
medications and pending-task phrases, yet on a thrown HTTP call the
outgoing-handover handler leaves the form untouched (status stays
blank) and only shows a toast — it does not fall back to the regex
heuristics, contradicting the claim. -/
theorem C2_mapOutgoing_counterexample :
    mapOutgoingFromTranscript
        "Patient status stable currently. Medications pending review."
        ⟨"", "", ""⟩ (.error "network error")
      = (⟨"", "", ""⟩, [.error "Failed to map outgoing data"])
    ∧ fallbackStatus "Patient status stable currently. Medications pending review."
        = "Patient status stable currently"
    ∧ fallbackMeds "Patient status stable currently. Medications pending review."
        = "Medications pending review"
    ∧ fallbackTasks "Patient status stable currently. Medications pending review."
        = "pending review" := by
  refine ⟨by decide, by decide, by decide, by decide⟩

/-- C2 (amended): when the HTTP call to the mapping endpoint throws,
the outgoing-handover handler catches the error, shows a non-blocking
toast, and leaves the form unchanged; the heuristic regex fallback over
the raw transcript fills the high-value fields only when the call
succeeds but the response lacks them. -/
theorem C2_mapOutgoing_amended (text : String) (prev : HandoverOutgoingForm)
    (e : String) (m : HandoverOutgoingResp) (ht : jsTrimS text ≠ "")
    (hm : m.patient_condition.getD "" = "") (hmed : m.medications = none)
    (hpend : m.pending_tasks = none) :
    (mapOutgoingFromTranscript text prev (.error e)).fst = prev
    ∧ (mapOutgoingFromTranscript text prev (.error e)).snd
        = [.error "Failed to map outgoing data"]
    ∧ (mapOutgoingFromTranscript text prev (.ok m)).fst.currentPatientStatus
        = jsOrS (fallbackStatus (jsTrimS text)) prev.currentPatientStatus
    ∧ (mapOutgoingFromTranscript text prev (.ok m)).fst.medsGiven
        = jsOrS (fallbackMeds (jsTrimS text)) prev.medsGiven
    ∧ (mapOutgoingFromTranscript text prev (.ok m)).fst.medsDue
        = jsOrS (fallbackTasks (jsTrimS text)) prev.medsDue := by
  have hint : String.intercalate "; " ([] : List String) = "" := by decide
  refine ⟨?_, ?_, ?_, ?_, ?_⟩ <;>
    simp [mapOutgoingFromTranscript, if_neg ht, hm, hmed, hpend, jsOrS, hint]

/-- C2 amended witness: concrete transcript, form, and an empty
response / thrown call. -/
theorem C2_mapOutgoing_amended_witness :
    (mapOutgoingFromTranscript "status stable. pending labs" ⟨"a", "b", "c"⟩
        (.error "boom")).fst = ⟨"a", "b", "c"⟩
    ∧ (mapOutgoingFromTranscript "status stable. pending labs" ⟨"a", "b", "c"⟩
        (.error "boom")).snd = [.error "Failed to map outgoing data"]
    ∧ (mapOutgoingFromTranscript "status stable. pending labs" ⟨"a", "b", "c"⟩
        (.ok ⟨none, none, none⟩)).fst.currentPatientStatus
      = jsOrS (fallbackStatus (jsTrimS "status stable. pending labs")) "a"
    ∧ (mapOutgoingFromTranscript "status stable. pending labs" ⟨"a", "b", "c"⟩
        (.ok ⟨none, none, none⟩)).fst.medsGiven
      = jsOrS (fallbackMeds (jsTrimS "status stable. pending labs")) "b"
    ∧ (mapOutgoingFromTranscript "status stable. pending labs" ⟨"a", "b", "c"⟩
        (.ok ⟨none, none, none⟩)).fst.medsDue
      = jsOrS (fallbackTasks (jsTrimS "status stable. pending labs")) "c" :=
  C2_mapOutgoing_amended "status stable. pending labs" ⟨"a", "b", "c"⟩ "boom"
    ⟨none, none, none⟩ (by decide) rfl rfl rfl

theorem validateProcessedData_fst (d : ProcessedAdmissionData) :
    (validateProcessedData d).fst = (validateProcessedData d).snd.isEmpty := rfl

/-- C9: `postProcessAdmission` returns the fully processed record even
when validation fails; the record-level checks only produce warning
messages that are logged, and the warning list accompanies, never
replaces, the record. -/
theorem C9_validation_nonblocking (c : Clock) (pid : String)
    (raw : RawAdmissionData)
    (h : (validateProcessedData (mkProcessed c pid raw)).fst = false) :
    (postProcessAdmission c pid raw).fst = mkProcessed c pid raw
    ∧ (postProcessAdmission c pid raw).snd
        = (validateProcessedData (mkProcessed c pid raw)).snd
    ∧ (validateProcessedData (mkProcessed c pid raw)).snd ≠ [] := by
  refine ⟨rfl, ?_, ?_⟩
  · simp only [postProcessAdmission, h, Bool.false_eq_true, if_false]
  · intro hnil
    rw [validateProcessedData_fst, hnil] at h
    exact Bool.noConfusion h

/-- C9 witness: the empty raw record fails validation (name, doctor,
ward, bed, reason missing; mobile not ten digits) yet the processed
record is still returned together with the warning list. -/
theorem C9_validation_witness :
    (postProcessAdmission sampleClock "PAT-1" {}).fst
        = mkProcessed sampleClock "PAT-1" {}
    ∧ (postProcessAdmission sampleClock "PAT-1" {}).snd
        = (validateProcessedData (mkProcessed sampleClock "PAT-1" {})).snd
    ∧ (validateProcessedData (mkProcessed sampleClock "PAT-1" {})).snd ≠ [] :=
  C9_validation_nonblocking sampleClock "PAT-1" {} (by decide)

theorem admissionPatch_keys (p : ProcessedAdmissionData) (base : String → JSVal) :
    ((admissionPatch p base).map Prod.fst).Nodup := by
  simp only [admissionPatch, List.map_cons, List.map_nil]
  decide

theorem admissionPatch_merge (p : ProcessedAdmissionData) (base : String → JSVal)
    (hd : jsTrimS p.admission_date ≠ "") (ht : jsTrimS p.admission_time ≠ "")
    (hg : p.gender = "male" ∨ p.gender = "female" ∨ p.gender = "other") :
    mergeIfPresent base (admissionPatch p base) "admission_date"
      = .str p.admission_date
    ∧ mergeIfPresent base (admissionPatch p base) "admission_time"
      = .str p.admission_time
    ∧ mergeIfPresent base (admissionPatch p base) "gender"
      = .str (capFirst p.gender) := by
  have hgne : p.gender ≠ "" := by
    rcases hg with h | h | h <;> simp [h]
  have hnd := admissionPatch_keys p base
  refine ⟨?_, ?_, ?_⟩
  · have hmem : ("admission_date", JSVal.str p.admission_date) ∈ admissionPatch p base := by
      simp [admissionPatch]
    rw [mergeIfPresent_mem base _ _ _ hnd hmem, if_pos ?_]
    simp only [keepVal, jsToString, bne_iff_ne, ne_eq]
    exact hd
  · have hmem : ("admission_time", JSVal.str p.admission_time) ∈ admissionPatch p base := by
      simp [admissionPatch]
    rw [mergeIfPresent_mem base _ _ _ hnd hmem, if_pos ?_]
    simp only [keepVal, jsToString, bne_iff_ne, ne_eq]
    exact ht
  · have hmem : ("gender", JSVal.str (capFirst p.gender)) ∈ admissionPatch p base := by
      simp [admissionPatch, if_pos hgne]
    rw [mergeIfPresent_mem base _ _ _ hnd hmem, if_pos ?_]
    rcases hg with h | h | h <;> rw [h] <;> decide

/-- C10: the record returned by `postProcessAdmission` always carries a
non-blank admission date and admission time, a gender from the fixed
three-value set (defaulting to "other" when the mapper said nothing),
and the constant status "admitted"; consequently the `mergeIfPresent`
merge of the Admission page always overwrites the form's
admission_date, admission_time and gender with the processed values,
whatever the previous form held. -/
theorem C10_defaults_always_overwrite (c : Clock) (pid : String)
    (raw : RawAdmissionData) (base : String → JSVal) (hc : clockOK c) :
    jsTrimS (postProcessAdmission c pid raw).fst.admission_date ≠ ""
    ∧ jsTrimS (postProcessAdmission c pid raw).fst.admission_time ≠ ""
    ∧ ((postProcessAdmission c pid raw).fst.gender = "male"
        ∨ (postProcessAdmission c pid raw).fst.gender = "female"
        ∨ (postProcessAdmission c pid raw).fst.gender = "other")
    ∧ (raw.gender = none → (postProcessAdmission c pid raw).fst.gender = "other")
    ∧ (postProcessAdmission c pid raw).fst.status = "admitted"
    ∧ mergeIfPresent base (admissionPatch (postProcessAdmission c pid raw).fst base)
        "admission_date" = .str (postProcessAdmission c pid raw).fst.admission_date
    ∧ mergeIfPresent base (admissionPatch (postProcessAdmission c pid raw).fst base)
        "admission_time" = .str (postProcessAdmission c pid raw).fst.admission_time
    ∧ mergeIfPresent base (admissionPatch (postProcessAdmission c pid raw).fst base)
        "gender" = .str (capFirst (postProcessAdmission c pid raw).fst.gender) := by
  have hd : jsTrimS (postProcessAdmission c pid raw).fst.admission_date ≠ "" :=
    normalizeDate_trim_ne c raw.admission_date hc
  have ht : jsTrimS (postProcessAdmission c pid raw).fst.admission_time ≠ "" :=
    normalizeTime_trim_ne c raw.admission_time hc
  have hg : (postProcessAdmission c pid raw).fst.gender = "male"
      ∨ (postProcessAdmission c pid raw).fst.gender = "female"
      ∨ (postProcessAdmission c pid raw).fst.gender = "other" :=
    normalizeGender_cases raw.gender
  obtain ⟨h1, h2, h3⟩ := admissionPatch_merge (postProcessAdmission c pid raw).fst
    base hd ht hg
  refine ⟨hd, ht, hg, ?_, rfl, h1, h2, h3⟩
  intro hnone
  show normalizeGender raw.gender = "other"
  rw [hnone]
  rfl

/-- C10 witness: concrete clock, empty mapper output, and a fully
populated previous form — the three fields are still overwritten. -/
theorem C10_defaults_witness :
    clockOK sampleClock
    ∧ ((postProcessAdmission sampleClock "PAT-1" {}).fst.status = "admitted"
      ∧ mergeIfPresent (fun _ => JSVal.str "2024-01-01")
          (admissionPatch (postProcessAdmission sampleClock "PAT-1" {}).fst
            (fun _ => JSVal.str "2024-01-01"))
          "admission_date"
        = .str (postProcessAdmission sampleClock "PAT-1" {}).fst.admission_date
      ∧ mergeIfPresent (fun _ => JSVal.str "2024-01-01")
          (admissionPatch (postProcessAdmission sampleClock "PAT-1" {}).fst
            (fun _ => JSVal.str "2024-01-01"))
          "gender"
        = .str (capFirst (postProcessAdmission sampleClock "PAT-1" {}).fst.gender)) :=
  ⟨by refine ⟨?_, ?_, ?_, ?_⟩ <;> decide,
   (C10_defaults_always_overwrite sampleClock "PAT-1" {}
      (fun _ => JSVal.str "2024-01-01")
      (by refine ⟨?_, ?_, ?_, ?_⟩ <;> decide)).2.2.2.2.1,
   (C10_defaults_always_overwrite sampleClock "PAT-1" {}
      (fun _ => JSVal.str "2024-01-01")
      (by refine ⟨?_, ?_, ?_, ?_⟩ <;> decide)).2.2.2.2.2.1,
   (C10_defaults_always_overwrite sampleClock "PAT-1" {}
      (fun _ => JSVal.str "2024-01-01")
      (by refine ⟨?_, ?_, ?_, ?_⟩ <;> decide)).2.2.2.2.2.2.2⟩

end DeployGro
